import Mathlib

/-!
Shallow embedding of the core fetch → parse → filter → cache pipeline of
`src/api.py` (Border Gates Traffic API).

The embedded pieces and their sources:
* `py_lower`, `py_strip`, `charListLe`/`strLe`/`py_sorted` — kernel-computable
  models of the Python primitives `str.lower()`, `str.strip()` (as invoked via
  `get_text(strip=True)`) and `sorted()` on strings (lexicographic comparison
  of code-point sequences);
* `CACHE_TIMEOUT_SECONDS`             — api.py line 74;
* the module-level `cache` dict       — modelled as an association list `Cache`
  with distinct keys, updated with Python dict semantics;
* `parse_rows`                        — the row loop of `fetch_border_data`,
  api.py lines 172–185;
* `apply_border_filter`               — api.py lines 197–216;
* `get_cached_data`/`set_cached_data` — `CacheManager`, api.py lines 234–250;
* `cache_key`                         — api.py line 366;
* `get_border_gate_data`              — the post-validation body of the
  endpoint, api.py lines 365–431 (the date-format/range validation in lines
  327–363 is the routing-layer concern and calls reaching the core are assumed
  validated).  The would-be outcome of the single upstream fetch is passed as
  an explicit argument `fetched : Option Matrix × Option String` mirroring the
  `(data_matrix, error_message)` tuple returned by `fetch_border_data`; the
  returned `Nat` counts the upstream fetches the call issues (0 on a cache
  hit, 1 otherwise).  Wall-clock time (`time.time()`) is an explicit integer
  argument `now`.
-/

namespace BorderGates

/-- Python `str.lower()` (as used on ASCII gate names): lowercase every
character. -/
def py_lower (s : String) : String := ⟨s.data.map Char.toLower⟩

/-- Python `str.strip()` semantics of `get_text(strip=True)`: drop leading and
trailing whitespace. -/
def py_strip (s : String) : String :=
  ⟨((s.data.dropWhile Char.isWhitespace).reverse.dropWhile Char.isWhitespace).reverse⟩

/-- Lexicographic (code-point) comparison of character sequences: the order
Python string comparison uses. -/
def charListLe : List Char → List Char → Bool
  | [], _ => true
  | _ :: _, [] => false
  | c :: cs, d :: ds => if c < d then true else if d < c then false else charListLe cs ds

/-- Python `s1 <= s2` on strings: lexicographic on the code points. -/
def strLe (a b : String) : Prop := charListLe a.data b.data = true

instance : DecidableRel strLe := fun _ _ => instDecidableEqBool _ _

/-- Python `sorted()` on a list of strings. -/
def py_sorted (l : List String) : List String := List.insertionSort strLe l

/-- A data matrix: ordered rows of string cells (`List[List[str]]` in api.py). -/
abbrev Matrix := List (List String)

/-- api.py line 74: `CACHE_TIMEOUT_SECONDS = 3600`.  Time is modelled in
integer seconds. -/
def CACHE_TIMEOUT_SECONDS : Int := 3600

/-- The module-level `cache: Dict[str, Tuple[List[List[str]], float]]`
(api.py line 75), modelled as an association list with distinct keys kept in
insertion order, matching Python dict semantics. -/
abbrev Cache := List (String × Matrix × Int)

/-- Python `key in cache` / `cache[key]`: the (unique) binding of `k`. -/
def cacheGet (c : Cache) (k : String) : Option (Matrix × Int) :=
  (c.find? (fun e => e.1 == k)).map (fun e => e.2)

/-- Python `del cache[key]`. -/
def cacheDel : Cache → String → Cache
  | [], _ => []
  | e :: rest, k => if e.1 = k then cacheDel rest k else e :: cacheDel rest k

/-- Python `cache[key] = v`: overwrite in place, append when the key is new. -/
def cacheSet : Cache → String → Matrix × Int → Cache
  | [], k, v => [(k, v)]
  | e :: rest, k, v => if e.1 = k then (k, v) :: rest else e :: cacheSet rest k v

/-- `CacheManager.get_cached_data` (api.py lines 234–245): on a hit within the
timeout return the stored matrix; on an expired entry delete it and report a
miss; otherwise a plain miss.  Returns the (possibly updated) store. -/
def get_cached_data (c : Cache) (timeout : Int) (now : Int) (key : String) :
    Option Matrix × Cache :=
  match cacheGet c key with
  | some (data, timestamp) =>
      if now - timestamp < timeout then (some data, c)
      else (none, cacheDel c key)
  | none => (none, c)

/-- `CacheManager.set_cached_data` (api.py lines 247–250). -/
def set_cached_data (c : Cache) (key : String) (data : Matrix) (now : Int) : Cache :=
  cacheSet c key (data, now)

/-- `apply_border_filter` (api.py lines 197–216): `if not gate_names: return data`
(true for `None` and for `[]`), otherwise keep rows that are non-empty
(`if row`) and whose column 0, lowercased, occurs in the lowercased gate-name
list. -/
def apply_border_filter (data : Matrix) (gate_names : Option (List String)) : Matrix :=
  match gate_names with
  | none => data
  | some [] => data
  | some (n :: ns) =>
      let gate_names_lower := (n :: ns).map py_lower
      data.filter (fun row =>
        match row with
        | [] => false
        | c :: _ => gate_names_lower.contains (py_lower c))

/-- The row loop of `fetch_border_data` (api.py lines 172–185): each input
entry is the list of raw `<td>` texts of one `<tr>`.  A row is kept when its
cell list is non-empty (`if columns:`) and, after stripping, not every cell is
the empty string (`if row_data and any(row_data)`). -/
def parse_rows : List (List String) → Matrix
  | [] => []
  | columns :: rest =>
      if columns.isEmpty then parse_rows rest
      else
        let row_data := columns.map py_strip
        if !row_data.isEmpty && row_data.any (fun s => !(s == "")) then
          row_data :: parse_rows rest
        else parse_rows rest

/-- api.py line 366:
`f"border_data_{start_date}_{end_date}_{'_'.join(sorted(gates) if gates else ['all'])}"`.
`sorted` sorts but does not deduplicate; `gates` is falsy when `None` or `[]`. -/
def cache_key (start_date end_date : String) (gates : Option (List String)) : String :=
  let gateList :=
    match gates with
    | some (g :: gs) => py_sorted (g :: gs)
    | _ => ["all"]
  "border_data_" ++ start_date ++ "_" ++ end_date ++ "_" ++
    String.intercalate "_" gateList

/-- Outcome of one endpoint call: a successful `BorderGatesResponse` (carrying
its `source` field and `data` matrix) or a raised `HTTPException` (status code
and `error_code`). -/
inductive PipeOutcome where
  | ok (source : String) (data : Matrix)
  | httpError (status : Nat) (error_code : String)
deriving DecidableEq, Repr

/-- The post-validation body of `get_border_gate_data` (api.py lines 365–431):
build the cache key, try the cache (short-circuiting on a hit with
`source="cache"`), otherwise consume the fetch outcome: an error message
raises 503 `DATA_SOURCE_ERROR`, a falsy matrix raises 404 `NO_DATA_FOUND`,
otherwise filter, cache the filtered matrix and return it with
`source="live"`.  The final `Nat` is the number of upstream fetches issued. -/
def get_border_gate_data (fetched : Option Matrix × Option String) (now : Int)
    (st : Cache) (start_date end_date : String) (gates : Option (List String)) :
    PipeOutcome × Cache × Nat :=
  let key := cache_key start_date end_date gates
  match get_cached_data st CACHE_TIMEOUT_SECONDS now key with
  | (some cached, st1) => (.ok "cache" cached, st1, 0)
  | (none, st1) =>
    match fetched with
    | (_, some _e) => (.httpError 503 "DATA_SOURCE_ERROR", st1, 1)
    | (none, none) => (.httpError 404 "NO_DATA_FOUND", st1, 1)
    | (some raw, none) =>
      if raw.isEmpty then (.httpError 404 "NO_DATA_FOUND", st1, 1)
      else
        let filtered := apply_border_filter raw gates
        (.ok "live" filtered, set_cached_data st1 key filtered now, 1)

/-- Row-keeping test of the parser, stated on the raw cell texts: the cell
list is non-empty and at least one cell is non-empty after stripping. -/
def keep_row (columns : List String) : Bool :=
  !columns.isEmpty && (columns.map py_strip).any (fun s => !(s == ""))

/-! ### Helper lemmas -/

theorem charListLe_total : ∀ l₁ l₂, charListLe l₁ l₂ = true ∨ charListLe l₂ l₁ = true
  | [], _ => Or.inl rfl
  | _ :: _, [] => Or.inr rfl
  | c :: cs, d :: ds => by
    rcases lt_trichotomy c d with h | h | h
    · left; simp [charListLe, h]
    · subst h
      rcases charListLe_total cs ds with ih | ih
      · left; simp [charListLe, ih]
      · right; simp [charListLe, ih]
    · right; simp [charListLe, h]

theorem charListLe_trans : ∀ l₁ l₂ l₃, charListLe l₁ l₂ = true → charListLe l₂ l₃ = true →
    charListLe l₁ l₃ = true
  | [], _, _, _, _ => rfl
  | _ :: _, [], _, h, _ => by simp [charListLe] at h
  | _ :: _, _ :: _, [], _, h => by simp [charListLe] at h
  | c :: cs, d :: ds, e :: es, h₁, h₂ => by
    simp only [charListLe] at h₁ h₂ ⊢
    split_ifs at h₁ with hcd hdc
    · split_ifs at h₂ with hde hed
      · simp [lt_trans hcd hde]
      · have hde2 : d = e := le_antisymm (not_lt.mp hed) (not_lt.mp hde)
        subst hde2
        simp [hcd]
    · have hcd2 : c = d := le_antisymm (not_lt.mp hdc) (not_lt.mp hcd)
      subst hcd2
      split_ifs at h₂ with hde hed
      · simp [hde]
      · have hce : c = e := le_antisymm (not_lt.mp hed) (not_lt.mp hde)
        subst hce
        simp [charListLe_trans cs ds es h₁ h₂]

theorem charListLe_antisymm : ∀ l₁ l₂, charListLe l₁ l₂ = true → charListLe l₂ l₁ = true →
    l₁ = l₂
  | [], [], _, _ => rfl
  | [], _ :: _, _, h => by simp [charListLe] at h
  | _ :: _, [], h, _ => by simp [charListLe] at h
  | c :: cs, d :: ds, h₁, h₂ => by
    simp only [charListLe] at h₁ h₂
    split_ifs at h₁ with hcd hdc
    · split_ifs at h₂ with hdc2
      · exact absurd hdc2 (lt_asymm hcd)
    · have hcd2 : c = d := le_antisymm (not_lt.mp hdc) (not_lt.mp hcd)
      subst hcd2
      rw [if_neg (lt_irrefl c), if_neg (lt_irrefl c)] at h₂
      rw [charListLe_antisymm cs ds h₁ h₂]

instance : IsTotal String strLe := ⟨fun a b => charListLe_total a.data b.data⟩

instance : IsTrans String strLe := ⟨fun a b c => charListLe_trans a.data b.data c.data⟩

instance : IsAntisymm String strLe :=
  ⟨fun a b h₁ h₂ => by
    cases a; cases b
    exact congrArg String.mk (charListLe_antisymm _ _ h₁ h₂)⟩

theorem py_sorted_eq_of_perm (l₁ l₂ : List String) (h : l₁.Perm l₂) :
    py_sorted l₁ = py_sorted l₂ :=
  List.eq_of_perm_of_sorted
    ((List.perm_insertionSort strLe l₁).trans (h.trans (List.perm_insertionSort strLe l₂).symm))
    (List.sorted_insertionSort strLe l₁) (List.sorted_insertionSort strLe l₂)

theorem contains_map_key (xs : List String) (f : String → String) (x : String) :
    (xs.map f).contains x = xs.any (fun g => x == f g) := by
  induction xs with
  | nil => rfl
  | cons y ys ih => simp only [List.map_cons, List.contains_cons, List.any_cons, ih]

theorem cacheGet_cacheSet (c : Cache) (k : String) (v : Matrix × Int) :
    cacheGet (cacheSet c k v) k = some v := by
  induction c with
  | nil => simp [cacheGet, cacheSet, List.find?]
  | cons e rest ih =>
    by_cases h : e.1 = k
    · simp [cacheGet, cacheSet, h, List.find?]
    · simpa [cacheGet, cacheSet, h, List.find?] using ih

theorem cacheGet_cacheDel (c : Cache) (k : String) :
    cacheGet (cacheDel c k) k = none := by
  induction c with
  | nil => rfl
  | cons e rest ih =>
    by_cases h : e.1 = k
    · simpa [cacheDel, h] using ih
    · simpa [cacheGet, cacheDel, h, List.find?] using ih

theorem isEmpty_map_strip (l : List String) : (l.map py_strip).isEmpty = l.isEmpty := by
  cases l <;> rfl

theorem parse_rows_eq_filter (rows : List (List String)) :
    parse_rows rows = (rows.filter keep_row).map (fun r => r.map py_strip) := by
  induction rows with
  | nil => rfl
  | cons columns rest ih =>
    cases he : columns.isEmpty with
    | true =>
        have hk : keep_row columns = false := by simp [keep_row, he]
        simp [parse_rows, he, List.filter_cons, hk, ih]
    | false =>
        cases ha : (columns.map py_strip).any (fun s => !(s == "")) with
        | true =>
            have hk : keep_row columns = true := by simp [keep_row, he, ha]
            simp [parse_rows, he, isEmpty_map_strip, ha, List.filter_cons, hk, ih]
        | false =>
            have hk : keep_row columns = false := by simp [keep_row, he, ha]
            simp [parse_rows, he, isEmpty_map_strip, ha, List.filter_cons, hk, ih]

/-! ### Claim theorems -/

/-- C3: cache lookup respects the TTL — for a key present in the cache, the
lookup returns the stored matrix when the entry's age is strictly below the
TTL, and when the age is at least the TTL it reports a miss and removes the
entry from the store. -/
theorem claim_C3 (c : Cache) (key : String) (data : Matrix) (ts now : Int)
    (hfound : cacheGet c key = some (data, ts)) :
    (now - ts < CACHE_TIMEOUT_SECONDS →
      get_cached_data c CACHE_TIMEOUT_SECONDS now key = (some data, c)) ∧
    (CACHE_TIMEOUT_SECONDS ≤ now - ts →
      get_cached_data c CACHE_TIMEOUT_SECONDS now key = (none, cacheDel c key) ∧
      cacheGet (cacheDel c key) key = none) := by
  constructor
  · intro hlt
    simp [get_cached_data, hfound, hlt]
  · intro hge
    have hnot : ¬ (now - ts < CACHE_TIMEOUT_SECONDS) := not_lt.mpr hge
    simp [get_cached_data, hfound, hnot, cacheGet_cacheDel]

/-- Witness for C3 at a one-entry store: a lookup 10 s after insertion hits. -/
theorem claim_C3_witness :
    cacheGet [("k", ([["r"]], (0 : Int)))] "k" = some ([["r"]], 0) ∧
    ((10 : Int) - 0 < CACHE_TIMEOUT_SECONDS) ∧
    get_cached_data [("k", ([["r"]], (0 : Int)))] CACHE_TIMEOUT_SECONDS 10 "k" =
      (some [["r"]], [("k", ([["r"]], (0 : Int)))]) :=
  ⟨by decide, by decide,
    (claim_C3 [("k", ([["r"]], (0 : Int)))] "k" [["r"]] 0 10 (by decide)).1 (by decide)⟩

/-- C5: with a non-empty filter list, exactly the rows whose column 0 equals
some filter entry up to lowercasing are kept; filtering the example two-row
matrix with `["hamzabeyli"]` keeps only the Hamzabeyli row. -/
theorem claim_C5 (M : Matrix) (F : List String) (h : F ≠ []) :
    apply_border_filter M (some F) =
      M.filter (fun row =>
        (row.head?.map (fun c => F.any (fun f => py_lower c == py_lower f))).getD false) ∧
    apply_border_filter
      [["Kapıkule", "Bulgaria", "Normal", "30-45 min", "2024-12-15 14:30"],
       ["Hamzabeyli", "Bulgaria", "Busy", "60-90 min", "2024-12-15 14:25"]]
      (some ["hamzabeyli"]) =
      [["Hamzabeyli", "Bulgaria", "Busy", "60-90 min", "2024-12-15 14:25"]] := by
  refine ⟨?_, by decide⟩
  match F, h with
  | n :: ns, _ =>
    simp only [apply_border_filter]
    refine List.filter_congr ?_
    intro row _
    cases row with
    | nil => rfl
    | cons c cs => exact contains_map_key (n :: ns) py_lower (py_lower c)

/-- Witness for C5 on the example matrix and filter `["hamzabeyli"]`. -/
theorem claim_C5_witness :
    (["hamzabeyli"] : List String) ≠ [] ∧
    (apply_border_filter
        [["Kapıkule", "Bulgaria", "Normal", "30-45 min", "2024-12-15 14:30"],
         ["Hamzabeyli", "Bulgaria", "Busy", "60-90 min", "2024-12-15 14:25"]]
        (some ["hamzabeyli"]) =
      List.filter (fun row =>
          (row.head?.map (fun c =>
            (["hamzabeyli"] : List String).any (fun f => py_lower c == py_lower f))).getD false)
        [["Kapıkule", "Bulgaria", "Normal", "30-45 min", "2024-12-15 14:30"],
         ["Hamzabeyli", "Bulgaria", "Busy", "60-90 min", "2024-12-15 14:25"]] ∧
     apply_border_filter
        [["Kapıkule", "Bulgaria", "Normal", "30-45 min", "2024-12-15 14:30"],
         ["Hamzabeyli", "Bulgaria", "Busy", "60-90 min", "2024-12-15 14:25"]]
        (some ["hamzabeyli"]) =
      [["Hamzabeyli", "Bulgaria", "Busy", "60-90 min", "2024-12-15 14:25"]]) :=
  ⟨by decide,
    claim_C5
      [["Kapıkule", "Bulgaria", "Normal", "30-45 min", "2024-12-15 14:30"],
       ["Hamzabeyli", "Bulgaria", "Busy", "60-90 min", "2024-12-15 14:25"]]
      ["hamzabeyli"] (by decide)⟩

/-- C6: an empty or absent filter list is a no-op — the matrix is returned
unchanged. -/
theorem claim_C6 (M : Matrix) :
    apply_border_filter M none = M ∧ apply_border_filter M (some []) = M :=
  ⟨rfl, rfl⟩

/-- C7: the filter is idempotent for every matrix and every filter list. -/
theorem claim_C7 (M : Matrix) (gates : Option (List String)) :
    apply_border_filter (apply_border_filter M gates) gates =
      apply_border_filter M gates := by
  match gates with
  | none => rfl
  | some [] => rfl
  | some (n :: ns) =>
    simp only [apply_border_filter]
    simp [List.filter_filter, Bool.and_self]

/-- C9: with a non-empty filter list no row of the result is empty, and an
empty row is skipped rather than having its column 0 accessed. -/
theorem claim_C9 (M : Matrix) (F : List String) (h : F ≠ []) :
    (∀ row ∈ apply_border_filter M (some F), row ≠ []) ∧
    apply_border_filter (([] : List String) :: M) (some F) =
      apply_border_filter M (some F) := by
  match F, h with
  | n :: ns, _ =>
    constructor
    · intro row hrow hnil
      subst hnil
      simp only [apply_border_filter] at hrow
      simpa using (List.mem_filter.mp hrow).2
    · simp only [apply_border_filter]
      rw [List.filter_cons]
      simp

/-- Witness for C9 at a matrix containing an empty row. -/
theorem claim_C9_witness :
    (["a"] : List String) ≠ [] ∧
    (∀ row ∈ apply_border_filter [["a", "x"], ["b", "y"]] (some ["a"]), row ≠ []) ∧
    apply_border_filter (([] : List String) :: [["a", "x"], ["b", "y"]]) (some ["a"]) =
      apply_border_filter [["a", "x"], ["b", "y"]] (some ["a"]) :=
  ⟨by decide, claim_C9 [["a", "x"], ["b", "y"]] ["a"] (by decide)⟩

/-- C8: the parser keeps, stripped and in document order, exactly the rows
that are non-empty and have some non-blank cell; with `pre ++ post` the
well-formed rows and one entirely blank row inserted between them, the parsed
matrix has length `(pre ++ post).length`. -/
theorem claim_C8 (rows pre post : List (List String)) (blank : List String)
    (hkeep : ∀ r ∈ pre ++ post, keep_row r = true)
    (hblank : keep_row blank = false) :
    parse_rows rows = (rows.filter keep_row).map (fun r => r.map py_strip) ∧
    (parse_rows (pre ++ blank :: post)).length = (pre ++ post).length := by
  refine ⟨parse_rows_eq_filter rows, ?_⟩
  rw [parse_rows_eq_filter, List.length_map, List.filter_append, List.filter_cons]
  rw [List.filter_eq_self.mpr fun a ha => hkeep a (List.mem_append_left _ ha),
    List.filter_eq_self.mpr fun a ha => hkeep a (List.mem_append_right _ ha)]
  simp [hblank]

/-- Witness for C8: two well-formed rows around one blank row parse to a
matrix of length 2. -/
theorem claim_C8_witness :
    (∀ r ∈ [["a"], ["b", ""]] ++ [["c"]], keep_row r = true) ∧
    keep_row ["", "  "] = false ∧
    (parse_rows ([["a"], ["b", ""]] ++ ["", "  "] :: [["c"]])).length =
      ([["a"], ["b", ""]] ++ [["c"]]).length :=
  ⟨by decide, by decide,
    (claim_C8 [] [["a"], ["b", ""]] [["c"]] ["", "  "] (by decide) (by decide)).2⟩

/-- C1: starting from a store with no live entry for the request's key, a
first call whose fetch succeeds returns the filtered data with
`source="live"` and issues one fetch; a second identical call within the TTL
issues no fetch (whatever its would-be fetch outcome), returns the same data
with `source="cache"`, and leaves the store unchanged. -/
theorem claim_C1 (st : Cache) (t1 t2 : Int) (m : Matrix)
    (f2 : Option Matrix × Option String)
    (start_date end_date : String) (gates : Option (List String))
    (hmiss : cacheGet st (cache_key start_date end_date gates) = none)
    (hm : m ≠ []) (h12 : t1 ≤ t2) (httl : t2 - t1 < CACHE_TIMEOUT_SECONDS) :
    ∃ d st1,
      get_border_gate_data (some m, none) t1 st start_date end_date gates =
        (.ok "live" d, st1, 1) ∧
      get_border_gate_data f2 t2 st1 start_date end_date gates =
        (.ok "cache" d, st1, 0) := by
  refine ⟨apply_border_filter m gates,
    set_cached_data st (cache_key start_date end_date gates)
      (apply_border_filter m gates) t1, ?_, ?_⟩
  · have hraw : m.isEmpty = false := by
      cases m with
      | nil => exact absurd rfl hm
      | cons r rs => rfl
    simp [get_border_gate_data, get_cached_data, hmiss, hraw]
  · have hget : cacheGet
        (set_cached_data st (cache_key start_date end_date gates)
          (apply_border_filter m gates) t1)
        (cache_key start_date end_date gates) =
        some (apply_border_filter m gates, t1) :=
      cacheGet_cacheSet st _ _
    simp [get_border_gate_data, get_cached_data, hget, httl]

/-- Witness for C1: a fresh store, a successful fetch of the example matrix
at `t=0`, then an identical unfiltered request at `t=100` whose would-be
fetch is an error; the second call is served from the cache. -/
theorem claim_C1_witness :
    cacheGet [] (cache_key "01-12-2024" "31-12-2024" none) = none ∧
    ([["Kapıkule", "Bulgaria", "Normal", "30-45 min", "2024-12-15 14:30"],
      ["Hamzabeyli", "Bulgaria", "Busy", "60-90 min", "2024-12-15 14:25"]] : Matrix) ≠ [] ∧
    ((0 : Int) ≤ 100) ∧ ((100 : Int) - 0 < CACHE_TIMEOUT_SECONDS) ∧
    ∃ d st1,
      get_border_gate_data
          (some [["Kapıkule", "Bulgaria", "Normal", "30-45 min", "2024-12-15 14:30"],
                 ["Hamzabeyli", "Bulgaria", "Busy", "60-90 min", "2024-12-15 14:25"]], none)
          0 [] "01-12-2024" "31-12-2024" none = (.ok "live" d, st1, 1) ∧
      get_border_gate_data (none, some "upstream down") 100 st1
          "01-12-2024" "31-12-2024" none = (.ok "cache" d, st1, 0) :=
  ⟨by decide, by decide, by decide, by decide,
    claim_C1 [] 0 100
      [["Kapıkule", "Bulgaria", "Normal", "30-45 min", "2024-12-15 14:30"],
       ["Hamzabeyli", "Bulgaria", "Busy", "60-90 min", "2024-12-15 14:25"]]
      (none, some "upstream down") "01-12-2024" "31-12-2024" none
      (by decide) (by decide) (by decide) (by decide)⟩

/-- C4: when the upstream fetch fails and the key is absent from the cache,
the pipeline returns the 503 `DATA_SOURCE_ERROR` outcome and the cache is
returned unchanged — no entry is created for the key. -/
theorem claim_C4 (st : Cache) (now : Int) (raw : Option Matrix) (err : String)
    (start_date end_date : String) (gates : Option (List String))
    (hmiss : cacheGet st (cache_key start_date end_date gates) = none) :
    get_border_gate_data (raw, some err) now st start_date end_date gates =
      (.httpError 503 "DATA_SOURCE_ERROR", st, 1) := by
  simp [get_border_gate_data, get_cached_data, hmiss]

/-- Witness for C4: an HTTP 503 fetch failure against an empty store leaves
the store empty. -/
theorem claim_C4_witness :
    cacheGet [] (cache_key "01-12-2024" "31-12-2024" none) = none ∧
    get_border_gate_data (none, some "Data source unavailable (HTTP 503)") 0 []
        "01-12-2024" "31-12-2024" none =
      (.httpError 503 "DATA_SOURCE_ERROR", [], 1) :=
  ⟨by decide,
    claim_C4 [] 0 none "Data source unavailable (HTTP 503)"
      "01-12-2024" "31-12-2024" none (by decide)⟩

/-- C2 fails as stated: the key construction sorts the filter list but does
not deduplicate it, so `["a", "a"]` and `["a"]` — equal as sets — yield
different cache keys for the same date range. -/
theorem claim_C2_counterexample :
    (∀ x, x ∈ (["a", "a"] : List String) ↔ x ∈ (["a"] : List String)) ∧
    cache_key "01-12-2024" "31-12-2024" (some ["a", "a"]) ≠
      cache_key "01-12-2024" "31-12-2024" (some ["a"]) := by
  constructor
  · intro x
    simp [List.mem_cons]
  · decide

/-- C2 (amended): the cache key is a deterministic function of the date range
and the *sorted* (not deduplicated) filter list — requests whose filter lists
are permutations of each other get identical keys. -/
theorem claim_C2_amended (d1 d2 : String) (g1 g2 : List String) (hperm : g1.Perm g2) :
    cache_key d1 d2 (some g1) = cache_key d1 d2 (some g2) := by
  cases g1 with
  | nil =>
    have h2 : g2 = [] := hperm.symm.eq_nil
    subst h2
    rfl
  | cons a as =>
    cases g2 with
    | nil => exact absurd hperm.eq_nil (by simp)
    | cons b bs =>
      simp only [cache_key]
      rw [py_sorted_eq_of_perm _ _ hperm]

/-- Witness for the amended C2: the reordered filter lists `["b", "a"]` and
`["a", "b"]` produce the same key. -/
theorem claim_C2_amended_witness :
    (["b", "a"] : List String).Perm ["a", "b"] ∧
    cache_key "01-12-2024" "31-12-2024" (some ["b", "a"]) =
      cache_key "01-12-2024" "31-12-2024" (some ["a", "b"]) :=
  ⟨List.Perm.swap "a" "b" [],
    claim_C2_amended "01-12-2024" "31-12-2024" ["b", "a"] ["a", "b"]
      (List.Perm.swap "a" "b" [])⟩

/-- C10: joining the sorted gate names with underscores is not injective —
the distinct filter lists `["a_b"]` and `["a", "b"]` give the same key, and a
request filtered by `["a_b"]` is served the matrix that a request filtered by
`["a", "b"]` cached, which differs from what its own filter would produce. -/
theorem claim_C10 :
    (["a_b"] : List String) ≠ ["a", "b"] ∧
    cache_key "01-12-2024" "31-12-2024" (some ["a_b"]) =
      cache_key "01-12-2024" "31-12-2024" (some ["a", "b"]) ∧
    (get_border_gate_data ((none : Option Matrix), some "would fail") 1
        (get_border_gate_data (some [["a", "x"], ["b", "y"], ["a_b", "z"]], none) 0 []
            "01-12-2024" "31-12-2024" (some ["a", "b"])).2.1
        "01-12-2024" "31-12-2024" (some ["a_b"])).1 =
      .ok "cache" [["a", "x"], ["b", "y"]] ∧
    apply_border_filter [["a", "x"], ["b", "y"], ["a_b", "z"]] (some ["a_b"]) =
      [["a_b", "z"]] :=
  ⟨by decide, by decide, by decide, by decide⟩

end BorderGates
